import Mathlib

/-!
Verification development for the CodeScribe event-to-job pipeline:
the webhook signature verifier (`verify_signature`), the event routing
endpoint (`github_webhook`), the worker dispatch/retry loop
(`process_jobs`), and the review-comment renderer (`handle_pr_review`).

Machine words are `Nat` reduced modulo `2 ^ 32` where the source relies
on 32-bit arithmetic (SHA-256); byte strings are `List Nat` of values
below 256; Python exceptions are modelled with `Except` / explicit
result constructors.
-/

set_option maxRecDepth 4096

namespace CodeScribe

/-! ### SHA-256 (as used by `hashlib.sha256` / `hmac.new(..., digestmod=hashlib.sha256)`) -/

/-- Truncate to a 32-bit word. -/
def w32 (x : Nat) : Nat := x % 4294967296

/-- 32-bit right rotation. -/
def rotr (n x : Nat) : Nat := w32 ((x >>> n) ||| (x <<< (32 - n)))

def shaCh (e f g : Nat) : Nat := (e &&& f) ^^^ ((e ^^^ 4294967295) &&& g)

def shaMaj (a b c : Nat) : Nat := (a &&& b) ^^^ (a &&& c) ^^^ (b &&& c)

def bigSigma0 (x : Nat) : Nat := rotr 2 x ^^^ rotr 13 x ^^^ rotr 22 x

def bigSigma1 (x : Nat) : Nat := rotr 6 x ^^^ rotr 11 x ^^^ rotr 25 x

def smallSigma0 (x : Nat) : Nat := rotr 7 x ^^^ rotr 18 x ^^^ (x >>> 3)

def smallSigma1 (x : Nat) : Nat := rotr 17 x ^^^ rotr 19 x ^^^ (x >>> 10)

/-- The 64 SHA-256 round constants. -/
def shaK : List Nat :=
  [1116352408, 1899447441, 3049323471, 3921009573,
   961987163, 1508970993, 2453635748, 2870763221,
   3624381080, 310598401, 607225278, 1426881987,
   1925078388, 2162078206, 2614888103, 3248222580,
   3835390401, 4022224774, 264347078, 604807628,
   770255983, 1249150122, 1555081692, 1996064986,
   2554220882, 2821834349, 2952996808, 3210313671,
   3336571891, 3584528711, 113926993, 338241895,
   666307205, 773529912, 1294757372, 1396182291,
   1695183700, 1986661051, 2177026350, 2456956037,
   2730485921, 2820302411, 3259730800, 3345764771,
   3516065817, 3600352804, 4094571909, 275423344,
   430227734, 506948616, 659060556, 883997877,
   958139571, 1322822218, 1537002063, 1747873779,
   1955562222, 2024104815, 2227730452, 2361852424,
   2428436474, 2756734187, 3204031479, 3329325298]

/-- Working state of the compression function (registers a..h). -/
structure Sha8 where
  a : Nat
  b : Nat
  c : Nat
  d : Nat
  e : Nat
  f : Nat
  g : Nat
  h : Nat

/-- Initial hash value. -/
def shaH0 : Sha8 :=
  ⟨1779033703, 3144134277, 1013904242, 2773480762,
   1359893119, 2600822924, 528734635, 1541459225⟩

/-- One SHA-256 round, given the pair (round constant, schedule word). -/
def shaRound (s : Sha8) (kw : Nat × Nat) : Sha8 :=
  let t1 := w32 (s.h + bigSigma1 s.e + shaCh s.e s.f s.g + kw.1 + kw.2)
  let t2 := w32 (bigSigma0 s.a + shaMaj s.a s.b s.c)
  ⟨w32 (t1 + t2), s.a, s.b, s.c, w32 (s.d + t1), s.e, s.f, s.g⟩

/-- Extend the reversed message schedule by `n` further words. -/
def extendSched : Nat → List Nat → List Nat
  | 0, rws => rws
  | n + 1, rws =>
    let wt := w32 (smallSigma1 (rws.getD 1 0) + rws.getD 6 0 +
                   smallSigma0 (rws.getD 14 0) + rws.getD 15 0)
    extendSched n (wt :: rws)

/-- Big-endian 4-byte groups to 32-bit words. -/
def bytesToWords : List Nat → List Nat
  | b0 :: b1 :: b2 :: b3 :: rest =>
      (b0 * 16777216 + b1 * 65536 + b2 * 256 + b3) :: bytesToWords rest
  | _ => []

/-- Compress one 64-byte block into the running hash value. -/
def shaBlock (s : Sha8) (block : List Nat) : Sha8 :=
  let w16 := bytesToWords block
  let w := (extendSched 48 w16.reverse).reverse
  let t := List.foldl shaRound s (shaK.zip w)
  ⟨w32 (s.a + t.a), w32 (s.b + t.b), w32 (s.c + t.c), w32 (s.d + t.d),
   w32 (s.e + t.e), w32 (s.f + t.f), w32 (s.g + t.g), w32 (s.h + t.h)⟩

/-- Split into 64-byte chunks (`fuel` bounds the recursion by the list length). -/
def chunks64Aux : Nat → List Nat → List (List Nat)
  | 0, _ => []
  | _, [] => []
  | fuel + 1, l => l.take 64 :: chunks64Aux fuel (l.drop 64)

def chunks64 (l : List Nat) : List (List Nat) := chunks64Aux l.length l

/-- 8-byte big-endian encoding of a natural number. -/
def be64 (n : Nat) : List Nat :=
  [(n >>> 56) % 256, (n >>> 48) % 256, (n >>> 40) % 256, (n >>> 32) % 256,
   (n >>> 24) % 256, (n >>> 16) % 256, (n >>> 8) % 256, n % 256]

/-- SHA-256 padding: 0x80, zeros to 56 mod 64, then the bit length. -/
def shaPad (m : List Nat) : List Nat :=
  let z := (64 - (m.length + 9) % 64) % 64
  m ++ [128] ++ List.replicate z 0 ++ be64 (8 * m.length)

/-- 32-bit word to big-endian bytes. -/
def wordToBytes (wd : Nat) : List Nat :=
  [(wd >>> 24) % 256, (wd >>> 16) % 256, (wd >>> 8) % 256, wd % 256]

/-- SHA-256 of a byte string, as a 32-byte digest. -/
def sha256 (m : List Nat) : List Nat :=
  let s := List.foldl shaBlock shaH0 (chunks64 (shaPad m))
  wordToBytes s.a ++ wordToBytes s.b ++ wordToBytes s.c ++ wordToBytes s.d ++
  wordToBytes s.e ++ wordToBytes s.f ++ wordToBytes s.g ++ wordToBytes s.h

/-! ### HMAC-SHA256 (`hmac.new(key, msg, digestmod=hashlib.sha256)`) -/

/-- HMAC-SHA256 of a message under a key, as a 32-byte digest. -/
def hmacSha256 (key msg : List Nat) : List Nat :=
  let k0 := if 64 < key.length then sha256 key else key
  let kp := k0 ++ List.replicate (64 - k0.length) 0
  let inner := sha256 ((kp.map fun b => b ^^^ 54) ++ msg)
  sha256 ((kp.map fun b => b ^^^ 92) ++ inner)

/-- Lowercase hex digit. -/
def hexChar (n : Nat) : Char :=
  if n < 10 then Char.ofNat (48 + n) else Char.ofNat (87 + n)

/-- Lowercase hex encoding of a byte string (`.hexdigest()`). -/
def hexEncode (l : List Nat) : String :=
  String.mk (l.flatMap fun b => [hexChar (b / 16), hexChar (b % 16)])

/-- UTF-8 encoding of a string (`str.encode('utf-8')`). -/
def utf8Encode (s : String) : List Nat :=
  s.data.flatMap fun c =>
    let n := c.toNat
    if n < 128 then [n]
    else if n < 2048 then [192 + n / 64, 128 + n % 64]
    else if n < 65536 then [224 + n / 4096, 128 + n / 64 % 64, 128 + n % 64]
    else [240 + n / 262144, 128 + n / 4096 % 64, 128 + n / 64 % 64, 128 + n % 64]

/-- `hmac.new(key.encode('utf-8'), msg=body, digestmod=hashlib.sha256).hexdigest()`. -/
def hmacHexDigest (key : String) (body : List Nat) : String :=
  hexEncode (hmacSha256 (utf8Encode key) body)

/-! ### String helpers mirroring the Python string operations used by the source -/

/-- Core of `str.split(c, 1)`: split at the first occurrence of `c`;
`none` when `c` does not occur (in which case Python returns a one-element
list and the two-name unpacking raises `ValueError`). -/
def splitOnceAux : List Char → Char → Option (List Char × List Char)
  | [], _ => none
  | a :: rest, c =>
    if a = c then some ([], rest)
    else
      match splitOnceAux rest c with
      | some (l, r) => some (a :: l, r)
      | none => none

/-- `s.split(c, 1)` restricted to the two-part outcome. -/
def splitOnce (s : String) (c : Char) : Option (String × String) :=
  match splitOnceAux s.data c with
  | some (l, r) => some (String.mk l, String.mk r)
  | none => none

/-- `sep.join(parts)`. -/
def pyJoin (sep : String) : List String → String
  | [] => ""
  | [x] => x
  | x :: y :: rest => x ++ sep ++ pyJoin sep (y :: rest)

/-! ### `verify_signature` (src/ingestion_service/main.py, lines 37-62) -/

/-- Outcome of `verify_signature`: return normally, raise an
`HTTPException(status_code, detail)`, or raise an uncaught Python error
(the `ValueError` from unpacking a one-element split result). -/
inductive VerifyResult
  | pass
  | reject (code : Nat) (detail : String)
  | vcrash
deriving DecidableEq

/-- Shallow embedding of `verify_signature`. `secret` is
`GITHUB_WEBHOOK_SECRET` (`none` when the environment variable is unset;
the empty string is falsy in Python, so it also skips verification),
`body` is the raw request body bytes, `header` is
`request.headers.get('X-Hub-Signature-256')` (an absent header yields
`None`, and an empty header value is falsy like an absent one). -/
def verifySignature (secret : Option String) (body : List Nat)
    (header : Option String) : VerifyResult :=
  match secret with
  | none => .pass
  | some k =>
    if k = "" then .pass
    else
      match header with
      | none => .reject 403 "Missing signature"
      | some h =>
        if h = "" then .reject 403 "Missing signature"
        else
          match splitOnce h '=' with
          | none => .vcrash
          | some (alg, sig) =>
            if alg = "sha256" then
              if hmacHexDigest k body = sig then .pass
              else .reject 403 "Invalid signature"
            else .reject 400 "Unsupported signature algorithm"

/-! ### JSON payloads and Python dictionary access -/

/-- Parsed JSON values as the webhook payload presents them.  Object
fields keep insertion order, as Python dicts do.  (JSON arrays are never
touched by the routed paths and are omitted.) -/
inductive Json
  | null
  | bool (b : Bool)
  | num (n : Int)
  | str (s : String)
  | obj (fields : List (String × Json))

/-- First-match association-list lookup (Python dict keys are unique). -/
def jsonLookup : List (String × Json) → String → Option Json
  | [], _ => none
  | (k, v) :: rest, key => if k = key then some v else jsonLookup rest key

/-- Python exceptions that the routed code can raise. -/
inductive PyErr
  | keyError (k : String)
  | typeError
  | attrError
  | valueError
deriving DecidableEq

/-- `x[k]` on a parsed JSON value: `KeyError` on a dict without the key,
`TypeError` on a non-dict (string subscripts on strings/numbers/None). -/
def pyIndex (x : Json) (k : String) : Except PyErr Json :=
  match x with
  | .obj fs =>
    match jsonLookup fs k with
    | some v => .ok v
    | none => .error (.keyError k)
  | _ => .error .typeError

/-- `x.get(k)`: only dicts have `.get`; anything else raises
`AttributeError`. -/
def pyGet (x : Json) (k : String) : Except PyErr (Option Json) :=
  match x with
  | .obj fs => .ok (jsonLookup fs k)
  | _ => .error .attrError

/-- `listHasPrefix pat l` : does `l` start with `pat`? -/
def listHasPrefix : List Char → List Char → Bool
  | [], _ => true
  | _ :: _, [] => false
  | p :: ps, c :: cs => p == c && listHasPrefix ps cs

/-- Does `l` contain `pat` as a contiguous run? -/
def listHasInfix : List Char → List Char → Bool
  | pat, [] => pat.isEmpty
  | pat, c :: cs => listHasPrefix pat (c :: cs) || listHasInfix pat cs

/-- `k in x` for a string `k`: key membership on dicts, substring test on
strings; `TypeError` on numbers/booleans/None. -/
def pyIn (k : String) (x : Json) : Except PyErr Bool :=
  match x with
  | .obj fs => .ok (jsonLookup fs k).isSome
  | .str s => .ok (listHasInfix k.data s.data)
  | _ => .error .typeError

/-- `str(x)` for the JSON scalars the source interpolates into messages
(only numbers and strings reach an f-string on the routed paths). -/
def pyStr : Json → String
  | .str s => s
  | .num n => toString n
  | .bool true => "True"
  | .bool false => "False"
  | .null => "None"
  | .obj _ => ""

/-- `action in ["opened", "synchronize"]`: only string values can equal
a string literal. -/
def isOpenedOrSync : Option Json → Bool
  | some (.str s) => s == "opened" || s == "synchronize"
  | _ => false

/-- `action == "created"`. -/
def isCreated : Option Json → Bool
  | some (.str s) => s == "created"
  | _ => false

/-! ### `github_webhook` (src/ingestion_service/main.py, lines 66-117) -/

/-- The two queue names as configured by the ingestion service
(`JOB_QUEUE_NAME` defaults to `"pr_review_jobs"`). -/
def JOB_QUEUE_NAME : String := "pr_review_jobs"

def REPLY_QUEUE_NAME : String := "pr_reply_jobs"

/-- HTTP-level outcome of the endpoint: a normal 200 JSON body
`{"status": ..., "message": ...}`, an `HTTPException`, or an uncaught
Python error (500). -/
inductive HttpResult
  | json200 (status message : String)
  | httpError (code : Nat) (detail : String)
  | pycrash (e : PyErr)

/-- HTTP status code of an outcome (uncaught errors have none). -/
def httpStatus : HttpResult → Option Nat
  | .json200 _ _ => some 200
  | .httpError c _ => some c
  | .pycrash _ => none

/-- The `try`-block of `github_webhook`: event routing.  Returns the
response together with the records pushed (queue name, record), or the
escaping Python exception.  `KeyError` is caught by the enclosing
`except`; everything else propagates. -/
def routeCore (event : Option String) (payload : Json) :
    Except PyErr (HttpResult × List (String × Json)) :=
  if event = some "pull_request" then do
    let action ← pyGet payload "action"
    if isOpenedOrSync action then do
      let repoName ← pyIndex payload "repository" >>= fun r => pyIndex r "full_name"
      let prNum ← pyIndex payload "pull_request" >>= fun r => pyIndex r "number"
      let instId ← pyIndex payload "installation" >>= fun r => pyIndex r "id"
      let job := Json.obj [("event_type", .str "pull_request"),
                           ("repo_full_name", repoName),
                           ("pr_number", prNum),
                           ("installation_id", instId)]
      pure (.json200 "success" ("Job queued for PR #" ++ pyStr prNum),
            [(JOB_QUEUE_NAME, job)])
    else
      pure (.json200 "success" "Event received but not processed", [])
  else if event = some "issue_comment" then do
    let action ← pyGet payload "action"
    if isCreated action then do
      let issue ← pyIndex payload "issue"
      let hasPRMarker ← pyIn "pull_request" issue
      if hasPRMarker then do
        let repoName ← pyIndex payload "repository" >>= fun r => pyIndex r "full_name"
        let prNum ← pyIndex payload "issue" >>= fun r => pyIndex r "number"
        let instId ← pyIndex payload "installation" >>= fun r => pyIndex r "id"
        let commentBody ← pyIndex payload "comment" >>= fun r => pyIndex r "body"
        let commenter ← pyIndex payload "comment" >>= fun r => pyIndex r "user" >>=
          fun r => pyIndex r "login"
        let job := Json.obj [("event_type", .str "issue_comment"),
                             ("repo_full_name", repoName),
                             ("pr_number", prNum),
                             ("installation_id", instId),
                             ("comment_body", commentBody),
                             ("commenter_login", commenter)]
        pure (.json200 "success" "Reply job queued", [(REPLY_QUEUE_NAME, job)])
      else
        pure (.json200 "success" "Event received but not processed", [])
    else
      pure (.json200 "success" "Event received but not processed", [])
  else
    pure (.json200 "success" "Event received but not processed", [])

/-- Shallow embedding of the `POST /webhook` endpoint: signature
verification first, then the Redis availability check, then routing with
`KeyError` caught and acknowledged as `{"status": "error", ...}`.
`payload` is the already-parsed JSON body (`await request.json()`). -/
def githubWebhook (secret : Option String) (body : List Nat)
    (sigHeader : Option String) (redisUp : Bool)
    (event : Option String) (payload : Json) :
    HttpResult × List (String × Json) :=
  match verifySignature secret body sigHeader with
  | .pass =>
    if redisUp then
      match routeCore event payload with
      | .ok r => r
      | .error (.keyError k) =>
        (.json200 "error" ("Malformed payload, missing \x27" ++ k ++ "\x27"), [])
      | .error e => (.pycrash e, [])
    else
      (.httpError 503 "Redis connection failed", [])
  | .reject c d => (.httpError c d, [])
  | .vcrash => (.pycrash .valueError, [])

/-! ### Review-comment rendering (src/worker/main.py, `handle_pr_review`, lines 142-149) -/

/-- One structured LLM suggestion (`CodeSuggestion` pydantic model). -/
structure CodeSuggestion where
  description : String
  suggestion : String

/-- The two `comment_parts` entries appended per enumerated suggestion
(the loop body of `for i, suggestion in enumerate(suggestions)`). -/
def suggestionParts (p : Nat × CodeSuggestion) : List String :=
  ["\n**" ++ toString (p.1 + 1) ++ ". " ++ p.2.description ++ "**\n",
   "```suggestion\n" ++ p.2.suggestion ++ "\n```"]

/-- The rendering step of `handle_pr_review`: turn the suggestion list
into the comment body posted to the PR. -/
def renderReviewBody (suggestions : List CodeSuggestion) : String :=
  if suggestions.isEmpty then
    "Great work! I analyzed the code and it adheres to all our project\x27s coding standards."
  else
    pyJoin "\n"
      ("I\x27ve identified the following areas for improvement based on our coding standards:" ::
        suggestions.enum.flatMap suggestionParts)

/-- Spec-side form of the i-th (0-based `i`, displayed as `i+1`) entry of
the numbered list: a separating blank line, the suggestion's description
in a bold numbered heading, then a fenced `suggestion` block with its
corrected code. -/
def specNumberedEntry (i : Nat) (s : CodeSuggestion) : String :=
  "\n" ++ ("\n**" ++ toString (i + 1) ++ ". " ++ s.description ++ "**\n") ++ "\n" ++
  ("```suggestion\n" ++ s.suggestion ++ "\n```")

/-- Plain concatenation of a list of strings. -/
def strConcat : List String → String
  | [] => ""
  | x :: xs => x ++ strConcat xs

/-! ### Worker dispatch loop (src/worker/main.py, `process_jobs`, lines 185-219) -/

/-- The hardcoded bot identity (`BOT_NAME`). -/
def BOT_NAME : String := "codescribe-mordris[bot]"

/-- `job_data["commenter_login"] != BOT_NAME`: a non-string value is
simply unequal. -/
def jsonNeqStr (j : Json) (t : String) : Bool :=
  match j with
  | .str s => s != t
  | _ => true

/-- `job_data[k]` collapsed to presence: the `except` clause treats
`KeyError` (missing key) and `TypeError` (non-dict record) identically,
so only success vs. exception matters to the loop. -/
def jGet (j : Json) (k : String) : Option Json :=
  match j with
  | .obj fs => jsonLookup fs k
  | _ => none

/-- State visible across loop iterations: the two queues (a Redis list,
`lpush` prepends and `brpop` removes the last element) and the local
variables `queue_name`/`job_json`, which persist across iterations once
bound (`'job_json' in locals()`). -/
structure WorkerState where
  reviewQ : List String
  replyQ : List String
  vars : Option (String × String)

/-- External effects of one iteration, fixed before the iteration runs:
whether `brpop` itself raises, what `json.loads` yields on a record
(`none` = `JSONDecodeError`), and whether each handler call raises. -/
structure WorkerEnv where
  brpopRaises : Bool
  decode : String → Option Json
  reviewRaises : Json → Bool
  replyRaises : Json → Bool

/-- The named queue of a state (the worker listens on
`[JOB_QUEUE_NAME, REPLY_QUEUE_NAME]`). -/
def stateQueue (s : WorkerState) (q : String) : List String :=
  if q = JOB_QUEUE_NAME then s.reviewQ
  else if q = REPLY_QUEUE_NAME then s.replyQ
  else []

/-- `lpush queue_name record`. -/
def lpushTo (s : WorkerState) (q : String) (r : String) : WorkerState :=
  if q = JOB_QUEUE_NAME then { s with reviewQ := r :: s.reviewQ }
  else if q = REPLY_QUEUE_NAME then { s with replyQ := r :: s.replyQ }
  else s

/-- `brpop([JOB_QUEUE_NAME, REPLY_QUEUE_NAME], timeout=0)`: pop the tail
of the first non-empty queue, in listed order; `none` when both queues
are empty (the call would block). -/
def brpopStep (s : WorkerState) : Option (String × String × WorkerState) :=
  match s.reviewQ.getLast? with
  | some r => some (JOB_QUEUE_NAME, r, { s with reviewQ := s.reviewQ.dropLast })
  | none =>
    match s.replyQ.getLast? with
    | some r => some (REPLY_QUEUE_NAME, r, { s with replyQ := s.replyQ.dropLast })
    | none => none

/-- Observable result of one iteration of the `while True` loop. -/
structure IterResult where
  state : WorkerState
  popped : Option (String × String)
  requeued : Option (String × String)
  errored : Bool
  slept : Nat
  invokedReview : Option Json
  invokedReply : Option Json
  blocked : Bool

/-- The `except` branch: log, re-queue `job_json` onto `queue_name` when
both are bound in `locals()`, and `time.sleep(5)`. -/
def exceptIter (s : WorkerState) (popped : Option (String × String))
    (ir ip : Option Json) : IterResult :=
  match s.vars with
  | some (q, r) => ⟨lpushTo s q r, popped, some (q, r), true, 5, ir, ip, false⟩
  | none => ⟨s, popped, none, true, 5, ir, ip, false⟩

/-- One iteration of `process_jobs`'s `while True` loop. -/
def workerIter (env : WorkerEnv) (s : WorkerState) : IterResult :=
  if env.brpopRaises then
    exceptIter s none none none
  else
    match brpopStep s with
    | none => ⟨s, none, none, false, 0, none, none, true⟩
    | some (q, r, s1) =>
      let s2 : WorkerState := { s1 with vars := some (q, r) }
      match env.decode r with
      | none => exceptIter s2 (some (q, r)) none none
      | some j =>
        match jGet j "installation_id" with
        | none => exceptIter s2 (some (q, r)) none none
        | some _ =>
          if q = JOB_QUEUE_NAME then
            if env.reviewRaises j then exceptIter s2 (some (q, r)) (some j) none
            else ⟨s2, some (q, r), none, false, 0, some j, none, false⟩
          else if q = REPLY_QUEUE_NAME then
            match jGet j "commenter_login" with
            | none => exceptIter s2 (some (q, r)) none none
            | some c =>
              if jsonNeqStr c BOT_NAME then
                if env.replyRaises j then exceptIter s2 (some (q, r)) none (some j)
                else ⟨s2, some (q, r), none, false, 0, none, some j, false⟩
              else
                ⟨s2, some (q, r), none, false, 0, none, none, false⟩
          else
            ⟨s2, some (q, r), none, false, 0, none, none, false⟩

/-- Run `n` iterations of the loop under a fixed environment. -/
def runWorker (env : WorkerEnv) : Nat → WorkerState → WorkerState
  | 0, s => s
  | n + 1, s => runWorker env n (workerIter env s).state

/-! ## Shared lemmas about the signature verifier -/

theorem splitOnce_sha256 (hex : String) :
    splitOnce ("sha256=" ++ hex) '=' = some ("sha256", hex) := by
  cases hex with
  | mk d => rfl

theorem sha256_append_ne_empty (hex : String) : ("sha256=" ++ hex) ≠ "" := by
  cases hex with
  | mk d =>
    intro h
    have := congrArg String.data h
    simp [String.data_append] at this

/-- With a non-empty secret and a well-formed `sha256=<hex>` header,
`verify_signature` returns normally iff `<hex>` is the expected digest. -/
theorem verify_accept_iff (k : String) (hk : k ≠ "") (body : List Nat) (hex : String) :
    verifySignature (some k) body (some ("sha256=" ++ hex)) = .pass ↔
      hex = hmacHexDigest k body := by
  simp only [verifySignature]
  rw [if_neg hk, if_neg (sha256_append_ne_empty hex), splitOnce_sha256]
  simp only [if_pos rfl]
  by_cases hd : hmacHexDigest k body = hex
  · rw [if_pos hd]
    simp [hd.symm]
  · rw [if_neg hd]
    constructor
    · intro h
      exact absurd h (by simp)
    · intro h
      exact absurd h.symm hd

theorem splitOnceAux_of_not_mem (c : Char) :
    ∀ l : List Char, c ∉ l → splitOnceAux l c = none := by
  intro l
  induction l with
  | nil => intro _; rfl
  | cons a rest ih =>
    intro hmem
    have ha : a ≠ c := fun h => hmem (h ▸ List.mem_cons_self a rest)
    have hr : c ∉ rest := fun h => hmem (List.mem_cons_of_mem a h)
    simp only [splitOnceAux, if_neg ha, ih hr]

theorem splitOnceAux_of_mem (c : Char) :
    ∀ l : List Char, c ∈ l → ∃ p, splitOnceAux l c = some p := by
  intro l
  induction l with
  | nil => intro h; exact absurd h (List.not_mem_nil c)
  | cons a rest ih =>
    intro hmem
    by_cases ha : a = c
    · exact ⟨([], rest), by simp only [splitOnceAux, if_pos ha]⟩
    · have hr : c ∈ rest := by
        rcases List.mem_cons.mp hmem with h | h
        · exact absurd h.symm ha
        · exact h
      obtain ⟨⟨pl, pr⟩, hp⟩ := ih hr
      exact ⟨(a :: pl, pr), by simp only [splitOnceAux, if_neg ha, hp]⟩

/-! ## Shared lemmas about the worker loop -/

theorem lpushTo_vars (s : WorkerState) (q r : String) :
    (lpushTo s q r).vars = s.vars := by
  unfold lpushTo
  split
  · rfl
  · split
    · rfl
    · rfl

theorem brpopStep_queue (s : WorkerState) (q r : String) (s1 : WorkerState)
    (h : brpopStep s = some (q, r, s1)) :
    q = JOB_QUEUE_NAME ∨ q = REPLY_QUEUE_NAME := by
  unfold brpopStep at h
  cases hl : s.reviewQ.getLast? with
  | some x =>
    rw [hl] at h
    simp only [Option.some.injEq, Prod.mk.injEq] at h
    exact Or.inl h.1.symm
  | none =>
    rw [hl] at h
    cases hl2 : s.replyQ.getLast? with
    | some x =>
      rw [hl2] at h
      simp only [Option.some.injEq, Prod.mk.injEq] at h
      exact Or.inr h.1.symm
    | none => rw [hl2] at h; exact absurd h (by simp)

theorem mem_stateQueue_lpushTo (s : WorkerState) (q r : String)
    (hq : q = JOB_QUEUE_NAME ∨ q = REPLY_QUEUE_NAME) :
    r ∈ stateQueue (lpushTo s q r) q := by
  rcases hq with h | h <;> subst h <;>
    simp [stateQueue, lpushTo, JOB_QUEUE_NAME, REPLY_QUEUE_NAME]

/-- After a successful `brpop`, an iteration either finishes normally
(no requeue) or errors and requeues exactly the popped record onto the
queue it came from; either way the `locals` keep the popped pair. -/
theorem workerIter_after_pop (env : WorkerEnv) (s : WorkerState) (q r : String)
    (s1 : WorkerState) (hb : env.brpopRaises = false)
    (hbrs : brpopStep s = some (q, r, s1)) :
    ((workerIter env s).errored = false ∧ (workerIter env s).requeued = none
      ∧ (workerIter env s).popped = some (q, r)
      ∧ (workerIter env s).state.vars = some (q, r))
    ∨ ((workerIter env s).errored = true
      ∧ (workerIter env s).requeued = some (q, r)
      ∧ (workerIter env s).popped = some (q, r)
      ∧ (workerIter env s).slept = 5
      ∧ (workerIter env s).state = lpushTo { s1 with vars := some (q, r) } q r
      ∧ (workerIter env s).state.vars = some (q, r)) := by
  cases hdec : env.decode r with
  | none =>
    right
    simp [workerIter, hb, hbrs, hdec, JOB_QUEUE_NAME, REPLY_QUEUE_NAME, exceptIter, lpushTo_vars]
  | some j =>
    cases hig : jGet j "installation_id" with
    | none =>
      right
      simp [workerIter, hb, hbrs, hdec, JOB_QUEUE_NAME, REPLY_QUEUE_NAME, hig, exceptIter, lpushTo_vars]
    | some v =>
      by_cases hq : q = "pr_review_jobs"
      · cases hrr : env.reviewRaises j with
        | true =>
          right
          simp [workerIter, hb, hbrs, hdec, JOB_QUEUE_NAME, REPLY_QUEUE_NAME, hig, hq, hrr, exceptIter, lpushTo_vars]
        | false =>
          left
          simp [workerIter, hb, hbrs, hdec, JOB_QUEUE_NAME, REPLY_QUEUE_NAME, hig, hq, hrr]
      · by_cases hq2 : q = "pr_reply_jobs"
        · cases hcl : jGet j "commenter_login" with
          | none =>
            right
            simp [workerIter, hb, hbrs, hdec, JOB_QUEUE_NAME, REPLY_QUEUE_NAME, hig, hq, hq2, hcl, exceptIter, lpushTo_vars]
          | some c =>
            cases hnb : jsonNeqStr c BOT_NAME with
            | true =>
              cases hrp : env.replyRaises j with
              | true =>
                right
                simp [workerIter, hb, hbrs, hdec, JOB_QUEUE_NAME, REPLY_QUEUE_NAME, hig, hq, hq2, hcl, hnb, hrp,
                      exceptIter, lpushTo_vars]
              | false =>
                left
                simp [workerIter, hb, hbrs, hdec, JOB_QUEUE_NAME, REPLY_QUEUE_NAME, hig, hq, hq2, hcl, hnb, hrp]
            | false =>
              left
              simp [workerIter, hb, hbrs, hdec, JOB_QUEUE_NAME, REPLY_QUEUE_NAME, hig, hq, hq2, hcl, hnb]
        · left
          simp [workerIter, hb, hbrs, hdec, JOB_QUEUE_NAME, REPLY_QUEUE_NAME, hig, hq, hq2]

theorem workerIter_pop_inv (env : WorkerEnv) (s : WorkerState) (q r : String)
    (hb : env.brpopRaises = false)
    (hp : (workerIter env s).popped = some (q, r)) :
    ∃ s1, brpopStep s = some (q, r, s1) := by
  cases hbrs : brpopStep s with
  | none => simp [workerIter, hb, hbrs] at hp
  | some t =>
    obtain ⟨q', r', s1⟩ := t
    have hcases := workerIter_after_pop env s q' r' s1 hb hbrs
    have hpop : (workerIter env s).popped = some (q', r') := by
      rcases hcases with ⟨_, _, h, _⟩ | ⟨_, _, h, _⟩ <;> exact h
    rw [hpop] at hp
    simp only [Option.some.injEq, Prod.mk.injEq] at hp
    obtain ⟨hq, hr⟩ := hp
    subst hq
    subst hr
    exact ⟨s1, rfl⟩

/-- A record on which `json.loads` always fails recirculates: the review
queue still holds exactly that record after any number of iterations. -/
theorem malformed_recirculates (env : WorkerEnv) (hb : env.brpopRaises = false)
    (r2 : String) (hd2 : env.decode r2 = none) :
    ∀ (n : Nat) (v : Option (String × String)),
    (runWorker env n ⟨[r2], [], v⟩).reviewQ = [r2] := by
  intro n
  induction n with
  | zero => intro v; rfl
  | succ m ih =>
    intro v
    have hpop : brpopStep ⟨[r2], [], v⟩ = some (JOB_QUEUE_NAME, r2, ⟨[], [], v⟩) := rfl
    have hstep : (workerIter env ⟨[r2], [], v⟩).state =
        ⟨[r2], [], some (JOB_QUEUE_NAME, r2)⟩ := by
      simp [workerIter, hb, hpop, hd2, exceptIter, lpushTo]
    simp only [runWorker]
    rw [hstep]
    exact ih (some (JOB_QUEUE_NAME, r2))

/-! ## Shared lemmas about the webhook routing -/

/-- Spec-side predicate: the payload matches none of the classifier
rules (rule 1: `pull_request` with action `opened`/`synchronize`;
rule 2: `issue_comment` with action `created` and a `pull_request`
marker on the issue object), on the paths the endpoint evaluates without
raising. -/
def classifierNoMatch (event : Option String) (payload : Json) : Bool :=
  if event = some "pull_request" then
    match payload with
    | .obj fs => !(isOpenedOrSync (jsonLookup fs "action"))
    | _ => false
  else if event = some "issue_comment" then
    match payload with
    | .obj fs =>
      if isCreated (jsonLookup fs "action") then
        match jsonLookup fs "issue" with
        | some (.obj ifs) => !(jsonLookup ifs "pull_request").isSome
        | _ => false
      else true
    | _ => false
  else true

theorem routeCore_noMatch (event : Option String) (payload : Json)
    (h : classifierNoMatch event payload = true) :
    routeCore event payload =
      .ok (.json200 "success" "Event received but not processed", []) := by
  unfold classifierNoMatch at h
  by_cases he1 : event = some "pull_request"
  · rw [if_pos he1] at h
    cases payload with
    | obj fs =>
      have hos : isOpenedOrSync (jsonLookup fs "action") = false := by
        simpa using h
      simp [routeCore, he1, pyGet, hos, bind, Except.bind, pure, Except.pure]
    | null => simp at h
    | bool b => simp at h
    | num n => simp at h
    | str s => simp at h
  · rw [if_neg he1] at h
    by_cases he2 : event = some "issue_comment"
    · rw [if_pos he2] at h
      cases payload with
      | obj fs =>
        by_cases hc : isCreated (jsonLookup fs "action") = true
        · cases hi : jsonLookup fs "issue" with
          | none => simp [hc, hi] at h
          | some v =>
            cases v with
            | obj ifs =>
              simp only [hc, if_true, hi] at h
              have hm : jsonLookup ifs "pull_request" = none :=
                Option.not_isSome_iff_eq_none.mp (by simpa using h)
              simp [routeCore, he1, he2, pyGet, pyIndex, pyIn, hc, hi, hm,
                    bind, Except.bind, pure, Except.pure]
            | null => simp [hc, hi] at h
            | bool b => simp [hc, hi] at h
            | num n => simp [hc, hi] at h
            | str s => simp [hc, hi] at h
        · have hc2 : isCreated (jsonLookup fs "action") = false :=
            Bool.not_eq_true _ ▸ (by simpa using hc)
          simp [routeCore, he1, he2, pyGet, hc2, bind, Except.bind, pure, Except.pure]
      | null => simp at h
      | bool b => simp at h
      | num n => simp at h
      | str s => simp at h
    · simp [routeCore, he1, he2, pure, Except.pure]

/-! ## Claim theorems -/

/-- Claim C1: with a configured (non-empty) secret `K`, the verifier
accepts a request with body `B` and header `sha256=<hex>` iff `<hex>` is
the lowercase hex encoding of HMAC-SHA256(K, B); consequently an
accepted request becomes rejected when the hex digest is changed to any
other string, or when the body is changed to one with a different
HMAC-SHA256 digest (as any bit flip produces). -/
theorem C1_signature_accept_characterization
    (K : String) (B B2 : List Nat) (hex hexAcc hex2 : String)
    (hK : K ≠ "")
    (hacc : hexAcc = hmacHexDigest K B)
    (hhex : hex2 ≠ hexAcc)
    (hB : hmacHexDigest K B2 ≠ hmacHexDigest K B) :
    (verifySignature (some K) B (some ("sha256=" ++ hex)) = .pass ↔
       hex = hmacHexDigest K B)
    ∧ verifySignature (some K) B (some ("sha256=" ++ hexAcc)) = .pass
    ∧ verifySignature (some K) B (some ("sha256=" ++ hex2)) ≠ .pass
    ∧ verifySignature (some K) B2 (some ("sha256=" ++ hexAcc)) ≠ .pass := by
  refine ⟨verify_accept_iff K hK B hex, (verify_accept_iff K hK B hexAcc).mpr hacc, ?_, ?_⟩
  · intro h
    exact hhex (hacc ▸ (verify_accept_iff K hK B hex2).mp h)
  · intro h
    exact hB (hacc ▸ (verify_accept_iff K hK B2 hexAcc).mp h).symm

theorem C1_signature_accept_characterization_witness :
    verifySignature (some "key") []
      (some ("sha256=" ++ "5d5d139563c95b5967b9bd9a8c9b233a9dedb45072794cd232dc1b74832607d0")) =
      .pass
    ∧ verifySignature (some "key") [] (some ("sha256=" ++ "00")) ≠ .pass
    ∧ verifySignature (some "key") [0]
      (some ("sha256=" ++ "5d5d139563c95b5967b9bd9a8c9b233a9dedb45072794cd232dc1b74832607d0")) ≠
      .pass := by
  have h := C1_signature_accept_characterization "key" [] [0] "aa"
    "5d5d139563c95b5967b9bd9a8c9b233a9dedb45072794cd232dc1b74832607d0" "00"
    (by decide) (by decide) (by decide) (by decide)
  exact ⟨h.2.1, h.2.2.1, h.2.2.2⟩

/-- Claim C7: the verifier's failure mapping with a configured secret is
absent header to 403 "Missing signature", non-`sha256` algorithm prefix
to 400 "Unsupported signature algorithm", digest mismatch to
403 "Invalid signature"; and with no secret configured (unset, or the
falsy empty string) every request passes verification. -/
theorem C7_verifier_failure_mapping
    (k h alg rest hex : String) (body body2 body3 body4 : List Nat)
    (hdr hdr2 : Option String)
    (hk : k ≠ "")
    (hh : h ≠ "")
    (hsplit : splitOnce h '=' = some (alg, rest))
    (halg : alg ≠ "sha256")
    (hmismatch : hex ≠ hmacHexDigest k body) :
    verifySignature (some k) body none = .reject 403 "Missing signature"
    ∧ verifySignature (some k) body2 (some h) = .reject 400 "Unsupported signature algorithm"
    ∧ verifySignature (some k) body (some ("sha256=" ++ hex)) = .reject 403 "Invalid signature"
    ∧ verifySignature none body3 hdr = .pass
    ∧ verifySignature (some "") body4 hdr2 = .pass := by
  refine ⟨?_, ?_, ?_, rfl, ?_⟩
  · simp only [verifySignature]
    rw [if_neg hk]
  · simp only [verifySignature]
    rw [if_neg hk, if_neg hh, hsplit]
    simp only [if_neg halg]
  · simp only [verifySignature]
    rw [if_neg hk, if_neg (sha256_append_ne_empty hex), splitOnce_sha256]
    have hne : hmacHexDigest k body ≠ hex := fun hd => hmismatch hd.symm
    simp [hne]
  · simp [verifySignature]

theorem C7_verifier_failure_mapping_witness :
    verifySignature (some "key") [] none = .reject 403 "Missing signature"
    ∧ verifySignature (some "key") [] (some "md5=x") =
        .reject 400 "Unsupported signature algorithm"
    ∧ verifySignature (some "key") [] (some ("sha256=" ++ "00")) =
        .reject 403 "Invalid signature"
    ∧ verifySignature none [] none = .pass
    ∧ verifySignature (some "") [] (some "garbage") = .pass :=
  C7_verifier_failure_mapping "key" "md5=x" "md5" "x" "00" [] [] [] [] none
    (some "garbage") (by decide) (by decide) (by decide) (by decide) (by decide)

/-- Claim C10: with a configured secret, a present non-empty header
containing no `=` character makes `verify_signature` raise an uncaught
`ValueError` (the two-name unpacking of a one-element `split` result)
instead of a 400/403 rejection, while any header containing at least one
`=` never reaches that crash. -/
theorem C10_header_without_equals_crashes
    (k h h2 : String) (body body2 : List Nat)
    (hk : k ≠ "")
    (hh : h ≠ "")
    (hno : '=' ∉ h.data)
    (hin : '=' ∈ h2.data) :
    verifySignature (some k) body (some h) = .vcrash
    ∧ verifySignature (some k) body2 (some h2) ≠ .vcrash := by
  constructor
  · simp only [verifySignature]
    rw [if_neg hk, if_neg hh]
    have : splitOnce h '=' = none := by
      simp only [splitOnce, splitOnceAux_of_not_mem '=' h.data hno]
    rw [this]
  · have h2ne : h2 ≠ "" := by
      intro he
      rw [he] at hin
      exact absurd hin (List.not_mem_nil '=')
    obtain ⟨⟨pl, pr⟩, hp⟩ := splitOnceAux_of_mem '=' h2.data hin
    have hsp : splitOnce h2 '=' = some (String.mk pl, String.mk pr) := by
      simp only [splitOnce, hp]
    simp only [verifySignature]
    rw [if_neg hk, if_neg h2ne, hsp]
    by_cases halg : String.mk pl = "sha256"
    · by_cases hd : hmacHexDigest k body2 = String.mk pr
      · simp [halg, hd]
      · simp [halg, hd]
    · simp [halg]

theorem C10_header_without_equals_crashes_witness :
    verifySignature (some "key") [] (some "abc") = .vcrash
    ∧ verifySignature (some "key") [] (some "=") ≠ .vcrash :=
  C10_header_without_equals_crashes "key" "abc" "=" [] []
    (by decide) (by decide) (by decide) (by decide)

/-- A `pull_request`/`opened` payload whose `installation` object is
absent (repository and pull_request fields present). -/
def payloadNoInstallation : Json :=
  .obj [("action", .str "opened"),
        ("repository", .obj [("full_name", .str "acme/widgets")]),
        ("pull_request", .obj [("number", .num 42)])]

/-- Claim C2 counterexample: on a `pull_request`/`opened` payload with
no installation id, the endpoint answers HTTP 200 with an error body —
not the claimed 400 — and pushes nothing. -/
theorem C2_missing_installation_counterexample :
    githubWebhook none [] none true (some "pull_request") payloadNoInstallation =
      (.json200 "error" "Malformed payload, missing \x27installation\x27", [])
    ∧ httpStatus (githubWebhook none [] none true (some "pull_request")
        payloadNoInstallation).1 = some 200 :=
  ⟨rfl, rfl⟩

/-- Claim C2 (amended): a `pull_request`/`opened` payload whose
`repository.full_name` and `pull_request.number` are present but whose
`installation` key is absent yields a 200 acknowledgment
`{"status": "error", "message": "Malformed payload, missing
'installation'"}`, and no job record is pushed onto either queue. -/
theorem C2_missing_installation_amended
    (b : List Nat) (sig : Option String)
    (fs rfs pfs : List (String × Json)) (rv pv : Json)
    (ha : jsonLookup fs "action" = some (.str "opened"))
    (hr : jsonLookup fs "repository" = some (.obj rfs))
    (hrn : jsonLookup rfs "full_name" = some rv)
    (hp : jsonLookup fs "pull_request" = some (.obj pfs))
    (hpn : jsonLookup pfs "number" = some pv)
    (hi : jsonLookup fs "installation" = none) :
    githubWebhook none b sig true (some "pull_request") (.obj fs) =
      (.json200 "error" "Malformed payload, missing \x27installation\x27", []) := by
  have hroute : routeCore (some "pull_request") (.obj fs) =
      .error (.keyError "installation") := by
    simp [routeCore, pyGet, pyIndex, ha, hr, hrn, hp, hpn, hi, isOpenedOrSync,
          bind, Except.bind, pure, Except.pure]
  simp [githubWebhook, verifySignature, hroute]

theorem C2_missing_installation_amended_witness :
    githubWebhook none [] none true (some "pull_request")
      (.obj [("action", .str "opened"),
             ("repository", .obj [("full_name", .str "acme/widgets")]),
             ("pull_request", .obj [("number", .num 42)])]) =
      (.json200 "error" "Malformed payload, missing \x27installation\x27", []) :=
  C2_missing_installation_amended [] none
    [("action", .str "opened"),
     ("repository", .obj [("full_name", .str "acme/widgets")]),
     ("pull_request", .obj [("number", .num 42)])]
    [("full_name", .str "acme/widgets")] [("number", .num 42)]
    (.str "acme/widgets") (.num 42) rfl rfl rfl rfl rfl rfl

/-- The `pull_request`/`opened` payload of the classifier example. -/
def payloadOpened : Json :=
  .obj [("action", .str "opened"),
        ("repository", .obj [("full_name", .str "acme/widgets")]),
        ("pull_request", .obj [("number", .num 42)]),
        ("installation", .obj [("id", .num 7)])]

/-- The same payload with action `synchronize`. -/
def payloadSynchronize : Json :=
  .obj [("action", .str "synchronize"),
        ("repository", .obj [("full_name", .str "acme/widgets")]),
        ("pull_request", .obj [("number", .num 42)]),
        ("installation", .obj [("id", .num 7)])]

/-- The exact job record the classifier must enqueue for that payload. -/
def reviewRecordAcme : Json :=
  .obj [("event_type", .str "pull_request"),
        ("repo_full_name", .str "acme/widgets"),
        ("pr_number", .num 42),
        ("installation_id", .num 7)]

/-- Claim C5: a `pull_request` payload with action `opened` (or
`synchronize`), repo `acme/widgets`, PR 42, installation 7 pushes
exactly the record `{event_type: pull_request, repo_full_name:
"acme/widgets", pr_number: 42, installation_id: 7}` onto the review
queue; and every payload matching none of the classifier rules pushes
nothing and is acknowledged as a no-op. -/
theorem C5_classifier_exact_record
    (b : List Nat) (sig sig2 : Option String) (event : Option String) (payload : Json)
    (hno : classifierNoMatch event payload = true) :
    githubWebhook none b sig true (some "pull_request") payloadOpened =
      (.json200 "success" "Job queued for PR #42", [(JOB_QUEUE_NAME, reviewRecordAcme)])
    ∧ githubWebhook none b sig true (some "pull_request") payloadSynchronize =
      (.json200 "success" "Job queued for PR #42", [(JOB_QUEUE_NAME, reviewRecordAcme)])
    ∧ githubWebhook none b sig2 true event payload =
      (.json200 "success" "Event received but not processed", []) := by
  refine ⟨rfl, rfl, ?_⟩
  simp [githubWebhook, verifySignature, routeCore_noMatch event payload hno]

theorem pyJoin_cons2 (sep x y : String) (l : List String) :
    pyJoin sep (x :: y :: l) = x ++ sep ++ pyJoin sep (y :: l) := rfl

theorem strConcat_cons (x : String) (l : List String) :
    strConcat (x :: l) = x ++ strConcat l := rfl

/-- Joining the enumerated suggestion parts with newlines yields, after
the separator preceding the first part, exactly the concatenation of the
numbered entries. -/
theorem pyJoin_suggestionParts :
    ∀ (rest : List CodeSuggestion) (n : Nat) (s : CodeSuggestion),
    "\n" ++ pyJoin "\n" ((List.enumFrom n (s :: rest)).flatMap suggestionParts)
      = strConcat ((List.enumFrom n (s :: rest)).map fun p => specNumberedEntry p.1 p.2) := by
  intro rest
  induction rest with
  | nil =>
    intro n s
    simp [List.enumFrom, suggestionParts, pyJoin, strConcat, specNumberedEntry,
          String.append_assoc, String.append_empty]
  | cons s2 rest2 ih =>
    intro n s
    have h3 : (List.enumFrom (n + 1) (s2 :: rest2)).flatMap suggestionParts
        = ("\n**" ++ toString (n + 2) ++ ". " ++ s2.description ++ "**\n") ::
          ("```suggestion\n" ++ s2.suggestion ++ "\n```") ::
          (List.enumFrom (n + 2) rest2).flatMap suggestionParts := rfl
    have h2 : (List.enumFrom n (s :: s2 :: rest2)).flatMap suggestionParts
        = ("\n**" ++ toString (n + 1) ++ ". " ++ s.description ++ "**\n") ::
          ("```suggestion\n" ++ s.suggestion ++ "\n```") ::
          (List.enumFrom (n + 1) (s2 :: rest2)).flatMap suggestionParts := rfl
    rw [h2, h3, pyJoin_cons2, pyJoin_cons2, ← h3]
    have hmap : (List.enumFrom n (s :: s2 :: rest2)).map
          (fun p => specNumberedEntry p.1 p.2)
        = specNumberedEntry n s ::
          (List.enumFrom (n + 1) (s2 :: rest2)).map (fun p => specNumberedEntry p.1 p.2) :=
      rfl
    rw [hmap, strConcat_cons, ← ih (n + 1) s2]
    simp only [specNumberedEntry, String.append_assoc]

/-- Claim C6: zero suggestions render the fixed approval sentence, and a
non-empty suggestion list renders the intro line followed, in input
order, by the numbered entries: the i-th entry holds the i-th
suggestion's description and a fenced block with its corrected code. -/
theorem C6_review_rendering (l : List CodeSuggestion) (hl : l ≠ []) :
    renderReviewBody [] =
      "Great work! I analyzed the code and it adheres to all our project\x27s coding standards."
    ∧ renderReviewBody l =
      "I\x27ve identified the following areas for improvement based on our coding standards:" ++
        strConcat (l.enum.map fun p => specNumberedEntry p.1 p.2) := by
  refine ⟨rfl, ?_⟩
  cases l with
  | nil => exact absurd rfl hl
  | cons s rest =>
    have hflat : ((s :: rest).enum).flatMap suggestionParts
        = ("\n**" ++ toString (0 + 1) ++ ". " ++ s.description ++ "**\n") ::
          ("```suggestion\n" ++ s.suggestion ++ "\n```") ::
          (List.enumFrom 1 rest).flatMap suggestionParts := rfl
    have hbody : renderReviewBody (s :: rest)
        = pyJoin "\n"
            ("I\x27ve identified the following areas for improvement based on our coding standards:" ::
              ((s :: rest).enum).flatMap suggestionParts) := rfl
    rw [hbody, hflat, pyJoin_cons2, ← hflat]
    have henum : (s :: rest).enum = List.enumFrom 0 (s :: rest) := rfl
    rw [henum, String.append_assoc, pyJoin_suggestionParts rest 0 s]

theorem C6_review_rendering_witness :
    renderReviewBody [] =
      "Great work! I analyzed the code and it adheres to all our project\x27s coding standards."
    ∧ renderReviewBody [⟨"use snake_case", "my_var = 10"⟩] =
      "I\x27ve identified the following areas for improvement based on our coding standards:" ++
        strConcat ([⟨"use snake_case", "my_var = 10"⟩].enum.map
          (fun p => specNumberedEntry p.1 p.2)) :=
  C6_review_rendering [⟨"use snake_case", "my_var = 10"⟩] (by simp)

theorem C5_classifier_exact_record_witness :
    githubWebhook none [] none true (some "pull_request") payloadOpened =
      (.json200 "success" "Job queued for PR #42", [(JOB_QUEUE_NAME, reviewRecordAcme)])
    ∧ githubWebhook none [] none true (some "pull_request") payloadSynchronize =
      (.json200 "success" "Job queued for PR #42", [(JOB_QUEUE_NAME, reviewRecordAcme)])
    ∧ githubWebhook none [] none true (some "push") .null =
      (.json200 "success" "Event received but not processed", []) :=
  C5_classifier_exact_record [] none none (some "push") .null rfl

/-- Environment whose `json.loads` always fails. -/
def envDecodeFail : WorkerEnv := ⟨false, fun _ => none, fun _ => false, fun _ => false⟩

/-- Environment delivering a well-formed review job that processes
without raising. -/
def envReviewOk : WorkerEnv :=
  ⟨false, fun _ => some (.obj [("installation_id", .num 7)]), fun _ => false, fun _ => false⟩

/-- Environment in which the blocking `brpop` call itself raises. -/
def envPopRaise : WorkerEnv := ⟨true, fun _ => none, fun _ => false, fun _ => false⟩

/-- A reply job authored by the bot itself. -/
def botReplyJob : Json :=
  .obj [("installation_id", .num 7), ("commenter_login", .str BOT_NAME)]

/-- Environment delivering `botReplyJob` on every record. -/
def envBotReply : WorkerEnv :=
  ⟨false, fun _ => some botReplyJob, fun _ => false, fun _ => false⟩

/-- Claim C3: when an exception escapes processing of a record popped
this iteration, the worker re-queues the same raw record onto the queue
it was popped from and sleeps exactly 5 time units; a record on which
deserialization always fails errors every iteration, is re-queued
unconditionally, and recirculates forever. -/
theorem C3_error_requeue_and_backoff
    (env : WorkerEnv) (s : WorkerState) (q r r2 : String) (n : Nat)
    (hb : env.brpopRaises = false)
    (hp : (workerIter env s).popped = some (q, r))
    (he : (workerIter env s).errored = true)
    (hd2 : env.decode r2 = none) :
    (workerIter env s).requeued = some (q, r)
    ∧ (workerIter env s).slept = 5
    ∧ r ∈ stateQueue (workerIter env s).state q
    ∧ (workerIter env (WorkerState.mk [r2] [] none)).errored = true
    ∧ (workerIter env (WorkerState.mk [r2] [] none)).requeued = some (JOB_QUEUE_NAME, r2)
    ∧ (runWorker env n (WorkerState.mk [r2] [] none)).reviewQ = [r2] := by
  obtain ⟨s1, hbrs⟩ := workerIter_pop_inv env s q r hb hp
  rcases workerIter_after_pop env s q r s1 hb hbrs with ⟨hf, _, _, _⟩ | ⟨_, hreq, _, hsl, hst, _⟩
  · rw [he] at hf
    exact absurd hf (by simp)
  · have hpop2 : brpopStep ⟨[r2], [], none⟩ = some (JOB_QUEUE_NAME, r2, ⟨[], [], none⟩) := rfl
    refine ⟨hreq, hsl, ?_, ?_, ?_, malformed_recirculates env hb r2 hd2 n none⟩
    · rw [hst]
      exact mem_stateQueue_lpushTo _ q r (brpopStep_queue s q r s1 hbrs)
    · simp [workerIter, hb, hpop2, hd2, exceptIter]
    · simp [workerIter, hb, hpop2, hd2, exceptIter]

theorem C3_error_requeue_and_backoff_witness :
    (workerIter envDecodeFail ⟨["x"], [], none⟩).requeued = some (JOB_QUEUE_NAME, "x")
    ∧ (workerIter envDecodeFail ⟨["x"], [], none⟩).slept = 5
    ∧ "x" ∈ stateQueue (workerIter envDecodeFail ⟨["x"], [], none⟩).state JOB_QUEUE_NAME
    ∧ (workerIter envDecodeFail (WorkerState.mk ["x"] [] none)).errored = true
    ∧ (workerIter envDecodeFail (WorkerState.mk ["x"] [] none)).requeued =
        some (JOB_QUEUE_NAME, "x")
    ∧ (runWorker envDecodeFail 3 (WorkerState.mk ["x"] [] none)).reviewQ = ["x"] :=
  C3_error_requeue_and_backoff envDecodeFail ⟨["x"], [], none⟩ JOB_QUEUE_NAME "x" "x" 3
    rfl rfl rfl rfl

/-- Claim C4: a well-formed reply job whose `commenter_login` equals the
bot identity is discarded: the Reply Orchestrator is not invoked, the
job is not re-queued, no error is recorded, and no backoff sleep
happens. -/
theorem C4_bot_comment_discarded
    (env : WorkerEnv) (s : WorkerState) (r : String) (j v : Json)
    (hb : env.brpopRaises = false)
    (hp : (workerIter env s).popped = some (REPLY_QUEUE_NAME, r))
    (hdec : env.decode r = some j)
    (hig : jGet j "installation_id" = some v)
    (hcl : jGet j "commenter_login" = some (.str BOT_NAME)) :
    (workerIter env s).invokedReply = none
    ∧ (workerIter env s).invokedReview = none
    ∧ (workerIter env s).requeued = none
    ∧ (workerIter env s).errored = false
    ∧ (workerIter env s).slept = 0 := by
  obtain ⟨s1, hbrs⟩ := workerIter_pop_inv env s REPLY_QUEUE_NAME r hb hp
  simp [workerIter, hb, hbrs, hdec, hig, hcl, jsonNeqStr, JOB_QUEUE_NAME,
        REPLY_QUEUE_NAME, BOT_NAME]

theorem C4_bot_comment_discarded_witness :
    (workerIter envBotReply ⟨[], ["y"], none⟩).invokedReply = none
    ∧ (workerIter envBotReply ⟨[], ["y"], none⟩).invokedReview = none
    ∧ (workerIter envBotReply ⟨[], ["y"], none⟩).requeued = none
    ∧ (workerIter envBotReply ⟨[], ["y"], none⟩).errored = false
    ∧ (workerIter envBotReply ⟨[], ["y"], none⟩).slept = 0 :=
  C4_bot_comment_discarded envBotReply ⟨[], ["y"], none⟩ "y" botReplyJob (.num 7)
    rfl rfl rfl rfl rfl

/-- Claim C8: whenever a record was popped this iteration and a requeue
happens, the requeued record is the byte-identical popped record, pushed
back onto the queue it came from, where it is again retrievable. -/
theorem C8_requeue_pushes_identical_record
    (env : WorkerEnv) (s : WorkerState) (q r : String)
    (hb : env.brpopRaises = false)
    (hp : (workerIter env s).popped = some (q, r))
    (hrq : (workerIter env s).requeued.isSome = true) :
    (workerIter env s).requeued = some (q, r)
    ∧ r ∈ stateQueue (workerIter env s).state q := by
  obtain ⟨s1, hbrs⟩ := workerIter_pop_inv env s q r hb hp
  rcases workerIter_after_pop env s q r s1 hb hbrs with ⟨_, hnone, _, _⟩ | ⟨_, hreq, _, _, hst, _⟩
  · rw [hnone] at hrq
    exact absurd hrq (by simp)
  · refine ⟨hreq, ?_⟩
    rw [hst]
    exact mem_stateQueue_lpushTo _ q r (brpopStep_queue s q r s1 hbrs)

theorem C8_requeue_pushes_identical_record_witness :
    (workerIter envDecodeFail ⟨["z"], [], none⟩).requeued = some (JOB_QUEUE_NAME, "z")
    ∧ "z" ∈ stateQueue (workerIter envDecodeFail ⟨["z"], [], none⟩).state JOB_QUEUE_NAME :=
  C8_requeue_pushes_identical_record envDecodeFail ⟨["z"], [], none⟩ JOB_QUEUE_NAME "z"
    rfl rfl rfl

/-- Claim C9: when `brpop` itself raises in an iteration after some
earlier iteration bound the `queue_name`/`job_json` locals — even if
that earlier job completed successfully — the worker re-queues that
stale record and sleeps, despite popping nothing this iteration. -/
theorem C9_stale_locals_requeued_on_brpop_failure
    (env env2 : WorkerEnv) (s s2 : WorkerState) (q r q2 r2 : String)
    (h1 : env.brpopRaises = true)
    (h2 : s.vars = some (q, r))
    (h3 : env2.brpopRaises = false)
    (h4 : (workerIter env2 s2).popped = some (q2, r2))
    (h5 : (workerIter env2 s2).errored = false) :
    (workerIter env s).popped = none
    ∧ (workerIter env s).requeued = some (q, r)
    ∧ (workerIter env s).errored = true
    ∧ (workerIter env s).slept = 5
    ∧ (workerIter env2 s2).state.vars = some (q2, r2) := by
  refine ⟨?_, ?_, ?_, ?_, ?_⟩
  · simp [workerIter, h1, exceptIter, h2]
  · simp [workerIter, h1, exceptIter, h2]
  · simp [workerIter, h1, exceptIter, h2]
  · simp [workerIter, h1, exceptIter, h2]
  · obtain ⟨s1, hbrs⟩ := workerIter_pop_inv env2 s2 q2 r2 h3 h4
    rcases workerIter_after_pop env2 s2 q2 r2 s1 h3 hbrs with
      ⟨_, _, _, hv⟩ | ⟨_, _, _, _, _, hv⟩ <;> exact hv

theorem C9_stale_locals_requeued_on_brpop_failure_witness :
    (workerIter envPopRaise ⟨[], [], some (JOB_QUEUE_NAME, "old")⟩).popped = none
    ∧ (workerIter envPopRaise ⟨[], [], some (JOB_QUEUE_NAME, "old")⟩).requeued =
        some (JOB_QUEUE_NAME, "old")
    ∧ (workerIter envPopRaise ⟨[], [], some (JOB_QUEUE_NAME, "old")⟩).errored = true
    ∧ (workerIter envPopRaise ⟨[], [], some (JOB_QUEUE_NAME, "old")⟩).slept = 5
    ∧ (workerIter envReviewOk ⟨["z2"], [], none⟩).state.vars = some (JOB_QUEUE_NAME, "z2") :=
  C9_stale_locals_requeued_on_brpop_failure envPopRaise envReviewOk
    ⟨[], [], some (JOB_QUEUE_NAME, "old")⟩ ⟨["z2"], [], none⟩
    JOB_QUEUE_NAME "old" JOB_QUEUE_NAME "z2" rfl rfl rfl rfl rfl

end CodeScribe
